import Mathlib

/-!
# bridge/mattermost/mattermost.go

A shallow embedding of the Mattermost adapter `Bmattermost`: the connection
cascade of `Connect`, the outbound translation of `Send`, and the inbound
normalisation done by `handleMatterClient`, `handleDownloadAvatar` and
`handleMatter`.

Conventions.
* Go strings are Lean strings; `+` on strings is `++`.
* A Go `map[string]T` is an association list read with `mapGet` and written
  with `mapSet`; a nil map is `none` where the source can see one.
* A call on the session client or on the webhook client is answered by a
  field of `Api`, and is recorded in the trace of what the function did.
* A run-time panic (nil dereference, failed type assertion, index out of
  range) ends the function: `Send` then returns no result, the inbound
  handlers end their trace with `Eff.crash`.
-/

set_option autoImplicit false

namespace Mattermost

/-! ## Go maps -/

/-- A Go `map[string]T`. -/
abbrev GoMap (β : Type) := List (String × β)

/-- The read `v, ok := m[k]`. -/
def mapGet {β : Type} (m : GoMap β) (k : String) : Option β :=
  match m with
  | [] => none
  | (k1, v) :: rest => if k1 = k then some v else mapGet rest k

/-- The map without the key `k`. -/
def mapDel {β : Type} (m : GoMap β) (k : String) : GoMap β :=
  match m with
  | [] => []
  | (k1, v) :: rest => if k1 = k then mapDel rest k else (k1, v) :: mapDel rest k

/-- The write `m[k] = v`: the entry of `k` is replaced, or added. -/
def mapSet {β : Type} (m : GoMap β) (k : String) (v : β) : GoMap β :=
  (k, v) :: mapDel m k

/-- The read `m[k]` of a map of slices: a missing key gives the nil slice. -/
def mapSlice {β : Type} (m : GoMap (List β)) (k : String) : List β :=
  (mapGet m k).getD []

/-! ## package strings -/

/-- The call `strings.HasPrefix(s, p)`. -/
def HasPrefix (s p : String) : Bool := p.data.isPrefixOf s.data

/-- The call `strings.HasSuffix(s, p)`. -/
def HasSuffix (s p : String) : Bool := p.data.isSuffixOf s.data

/-- The call `strings.Replace(s, string(c), "", -1)` for a one-byte `c`: every
occurrence of `c` is deleted. -/
def removeAll (s : String) (c : Char) : String := ⟨s.data.filter (fun x => x != c)⟩

/-! ## replaceAction (mattermost.go 381-386) -/

/-- The method `replaceAction`. -/
def replaceAction (text : String) : String × Bool :=
  if HasPrefix text "*" && HasSuffix text "*" then
    (removeAll text '*', true)
  else
    (text, false)

/-! ## package config: what the adapter reads and exchanges -/

/-- Modelled from the spec: the event constants of package `config` are not in
this file's source; section 3 names the kinds Normal, UserAction, MessageDelete,
AvatarDownload, FileTooLarge and JoinLeave. `EVENT_JOIN_LEAVE` is JoinLeave. -/
def EVENT_JOIN_LEAVE : String := "join_leave"

/-- Modelled from the spec: the event constant for the kind UserAction. -/
def EVENT_USER_ACTION : String := "user_action"

/-- Modelled from the spec: the event constant for the kind MessageDelete. -/
def EVENT_MSG_DELETE : String := "msg_delete"

/-- Modelled from the spec: the event constant for the kind AvatarDownload. -/
def EVENT_AVATAR_DOWNLOAD : String := "avatar_download"

/-- Modelled from the spec: the event constant for the kind FileTooLarge. -/
def EVENT_FILE_FAILURE_SIZE : String := "file_failure_size"

/-- A byte slice. -/
abbrev Bytes := List Nat

/-- The struct `config.FileInfo`, with the fields the adapter sets or reads.
`Data` is a pointer to a byte slice: `none` is the nil pointer. -/
structure FileInfo where
  Name : String := ""
  Data : Option Bytes := none
  Comment : String := ""
  URL : String := ""
  Size : Int := 0
  Avatar : Bool := false
  SHA : String := ""
deriving DecidableEq, Repr

/-- A value of type `interface{}` stored in `Extra`: a `config.FileInfo`, or a
value of some other dynamic type (shown by a label). -/
inductive Iface where
  | fileInfo (fi : FileInfo)
  | other (label : String)
deriving DecidableEq, Repr

/-- The type assertion `f.(config.FileInfo)`; `none` is the panic of a failed
assertion. -/
def Iface.asFileInfo : Iface → Option FileInfo
  | Iface.fileInfo fi => some fi
  | Iface.other _ => none

/-- The struct `config.Message`, with the fields the adapter sets or reads.
`Extra` is a map that may be nil. The kind Normal is the empty `Event`. -/
structure Message where
  Text : String := ""
  Channel : String := ""
  Username : String := ""
  UserID : String := ""
  Avatar : String := ""
  Account : String := ""
  Event : String := ""
  ID : String := ""
  Extra : Option (GoMap (List Iface)) := none
deriving DecidableEq, Repr

/-- The struct `MMMessage` (mattermost.go 23-31). -/
structure MMMessage where
  Text : String := ""
  Channel : String := ""
  Username : String := ""
  UserID : String := ""
  ID : String := ""
  Event : String := ""
  Extra : Option (GoMap (List Iface)) := none
deriving DecidableEq, Repr

/-- The fields of `b.Config` (`config.Protocol`) the adapter reads. -/
structure Config where
  WebhookBindAddress : String := ""
  WebhookURL : String := ""
  Token : String := ""
  Login : String := ""
  Password : String := ""
  Team : String := ""
  Server : String := ""
  SkipTLSVerify : Bool := false
  NoTLS : Bool := false
  PrefixMessagesWithNick : Bool := false
  EditDisable : Bool := false
  EditSuffix : String := ""
  IconURL : String := ""
deriving DecidableEq, Repr

/-- The fields of `b.General` the adapter reads. `MediaDownloadSize` is a Go
`int`. -/
structure General where
  MediaServerUpload : String := ""
  MediaDownloadSize : Int := 0
deriving DecidableEq, Repr

/-! ## The two clients -/

/-- What `matterhook.New(url, matterhook.Config{...})` was called with: the
webhook client `b.mh`. -/
structure HookClient where
  Url : String
  InsecureSkipVerify : Bool
  BindAddress : String := ""
  DisableServer : Bool := false
deriving DecidableEq, Repr

/-- What `matterclient.New(login, password, team, server)` was called with and
the two flags set on it: the session client `b.mc`. `Username` is
`b.mc.User.Username`, the user the session is logged in as. -/
structure Session where
  Login : String
  Password : String
  Team : String
  Server : String
  SkipTLSVerify : Bool := false
  NoTLS : Bool := false
  Username : String := ""
deriving DecidableEq, Repr

/-- A background task started with `go`. -/
inductive Task where
  | handleMatter
  | WsReceiver
  | StatusLoop
deriving DecidableEq, Repr

/-- The struct `Bmattermost` (mattermost.go 33-39): `mh` and `mc` are pointers,
nil until `Connect` sets them. `tasks` lists the goroutines started so far. -/
structure Bmattermost where
  mh : Option HookClient := none
  mc : Option Session := none
  TeamId : String := ""
  Config : Config := {}
  General : General := {}
  Account : String := ""
  avatarMap : GoMap String := []
  tasks : List Task := []
deriving DecidableEq, Repr

/-- The server's side of a login: `Login` answers `b.mc.Login()` (none is
success), `GetTeamId` answers `b.mc.GetTeamId()`, `Username` is the user name
the server reports for the session. -/
structure LoginApi where
  Login : Session → Option String
  GetTeamId : Session → String
  Username : Session → String

/-! ## apiLogin and Connect (mattermost.go 58-126, 359-379) -/

/-- The method `apiLogin`: the new state and the error, if any. -/
def apiLogin (srv : LoginApi) (b : Bmattermost) : Bmattermost × Option String :=
  let password := if b.Config.Token ≠ "" then "MMAUTHTOKEN=" ++ b.Config.Token
    else b.Config.Password
  let mc0 : Session :=
    { Login := b.Config.Login, Password := password, Team := b.Config.Team,
      Server := b.Config.Server, SkipTLSVerify := b.Config.SkipTLSVerify,
      NoTLS := b.Config.NoTLS }
  match srv.Login mc0 with
  | some err => ({ b with mc := some mc0 }, some err)
  | none =>
    ({ b with mc := some { mc0 with Username := srv.Username mc0 },
              TeamId := srv.GetTeamId mc0,
              tasks := b.tasks ++ [Task.WsReceiver, Task.StatusLoop] }, none)

/-- The statement `go b.handleMatter()`. -/
def goHandleMatter (b : Bmattermost) : Bmattermost :=
  { b with tasks := b.tasks ++ [Task.handleMatter] }

/-- The error of line 123. -/
def noConnectionMethod : String :=
  "No connection method found. See that you have WebhookBindAddress, WebhookURL or Token/Login/Password/Server/Team configured."

/-- The call `apiLogin` followed by `go b.handleMatter()` on success, as the
branches of `Connect` do. -/
def loginThenPump (srv : LoginApi) (b : Bmattermost) : Bmattermost × Option String :=
  match apiLogin srv b with
  | (b1, some err) => (b1, some err)
  | (b1, none) => (goHandleMatter b1, none)

/-- The client of lines 62-64 and 79-81: `matterhook.New` with `BindAddress`
set, so with its server listening on that address. -/
def hookWithServer (c : Config) : HookClient :=
  { Url := c.WebhookURL, InsecureSkipVerify := c.SkipTLSVerify,
    BindAddress := c.WebhookBindAddress }

/-- The client of lines 88-90: `matterhook.New` with `DisableServer` set. -/
def hookSendOnly (c : Config) : HookClient :=
  { Url := c.WebhookURL, InsecureSkipVerify := c.SkipTLSVerify, DisableServer := true }

/-- The method `Connect`: the new state and the error, if any. -/
def Connect (srv : LoginApi) (b : Bmattermost) : Bmattermost × Option String :=
  if b.Config.WebhookBindAddress ≠ "" then
    if b.Config.WebhookURL ≠ "" then
      (goHandleMatter { b with mh := some (hookWithServer b.Config) }, none)
    else if b.Config.Token ≠ "" then
      loginThenPump srv b
    else if b.Config.Login ≠ "" then
      loginThenPump srv b
    else
      (goHandleMatter { b with mh := some (hookWithServer b.Config) }, none)
  else if b.Config.WebhookURL ≠ "" then
    let b1 : Bmattermost := { b with mh := some (hookSendOnly b.Config) }
    if b.Config.Token ≠ "" then
      loginThenPump srv b1
    else if b.Config.Login ≠ "" then
      loginThenPump srv b1
    else
      (b1, none)
  else
    let r : Bmattermost × Option String :=
      if b.Config.Token ≠ "" then loginThenPump srv b
      else if b.Config.Login ≠ "" then loginThenPump srv b
      else (b, none)
    match r with
    | (b1, some err) => (b1, some err)
    | (b1, none) =>
      if b.Config.WebhookBindAddress = "" ∧ b.Config.WebhookURL = "" ∧
          b.Config.Login = "" ∧ b.Config.Token = "" then
        (b1, some noConnectionMethod)
      else
        (b1, none)

/-- The inbound pump `handleMatter` starts (mattermost.go 239-249): the webhook
pump reads from `b.mh`, the session pump from `b.mc`. -/
inductive Pump where
  | webhook (mh : Option HookClient)
  | session (mc : Option Session)
deriving DecidableEq, Repr

/-- The pump choice of `handleMatter`. -/
def pumpChoice (b : Bmattermost) : Pump :=
  if b.Config.WebhookBindAddress ≠ "" then Pump.webhook b.mh else Pump.session b.mc

/-- The inbound pump running after `Connect`: none unless `handleMatter` was
started. -/
def inboundPump (b : Bmattermost) : Option Pump :=
  if Task.handleMatter ∈ b.tasks then some (pumpChoice b) else none

/-- The sink `Send` posts to (mattermost.go 168, 202-234): the webhook client
when `WebhookURL` is set, the session client otherwise. -/
inductive Sink where
  | webhook (mh : Option HookClient)
  | sessionApi (mc : Option Session)
deriving DecidableEq, Repr

/-- The sink choice of `Send`. -/
def sinkChoice (b : Bmattermost) : Sink :=
  if b.Config.WebhookURL ≠ "" then Sink.webhook b.mh else Sink.sessionApi b.mc

/-! ## Send (mattermost.go 144-235) -/

/-- A value of a `map[string]interface{}` of post properties: a `bool`, a
`string`, a `[]interface{}`, or a value of another dynamic type. -/
inductive PropVal where
  | bool (v : Bool)
  | str (v : String)
  | list (v : List Iface)
  | other (label : String)
deriving DecidableEq, Repr

/-- The struct `matterhook.OMessage` with the fields `Send` fills (`Type_` is
its field `Type`). -/
structure OMessage where
  IconURL : String := ""
  Channel : String := ""
  UserName : String := ""
  Type_ : String := ""
  Text : String := ""
  Props : GoMap PropVal := []
deriving DecidableEq, Repr

/-- The struct `model.FileInfo` as `GetFileInfo` returns it. -/
structure FInfo where
  Id : String := ""
  Name : String := ""
  Size : Int := 0
deriving DecidableEq, Repr

/-- The answers of the two clients. An error is `some`, success is `none`.
`hookSend` is `b.mh.Send`; the others are the methods of `b.mc` and of
`b.mc.Client` of the same name (`GetChannelId` is called with `""` as its second
argument, `DownloadFile` with `true`, `GetProfileImage` with `""`). -/
structure Api where
  hookSend : OMessage → Option String
  GetChannelId : String → String
  PostMessage : String → String → String × Option String
  DeleteMessage : String → Option String
  EditMessage : String → String → String × Option String
  UploadFile : Bytes → String → String → String × Option String
  PostMessageWithFiles : String → String → List String → String × Option String
  GetProfileImage : String → Bytes × Option String
  GetFileLink : String → String
  GetFileInfo : String → FInfo × Option String
  DownloadFile : String → Bytes × Option String

/-- The two functions of package `helper` the adapter calls; their code is not
part of this file's source, so they are parameters. -/
structure Helper where
  HandleExtra : Message → General → List Message
  GetAvatar : GoMap String → String → General → String

/-- A call `Send` makes on a client. -/
inductive Call where
  | hookSend (m : OMessage)
  | PostMessage (channelId text : String)
  | DeleteMessage (id : String)
  | EditMessage (id text : String)
  | UploadFile (data : Bytes) (channelId name : String)
  | PostMessageWithFiles (channelId text : String) (fileIds : List String)
deriving DecidableEq, Repr

/-- What a run of `Send` did: `ret` is the returned pair (remote id, error), or
`none` when the run panicked; `calls` are the client calls in order;
`avatarMap` is `b.avatarMap` afterwards. -/
structure SendResult where
  ret : Option (String × Option String)
  calls : List Call
  avatarMap : GoMap String
deriving DecidableEq, Repr

/-- The read `msg.Extra[k]`: a nil map reads as an empty one. -/
def extraSlice (e : Option (GoMap (List Iface))) (k : String) : List Iface :=
  match e with
  | none => []
  | some mp => mapSlice mp k

/-- A method call on a client pointer that may be nil. With the client there the
run is `r`. With a nil client the first call on it panics: a run that makes no
call is as it is, any other run ends in a panic before its first call. -/
def onClient {γ : Type} (client : Option γ) (r : SendResult) : SendResult :=
  match client with
  | some _ => r
  | none => if r.calls.isEmpty then r else { r with ret := none, calls := [] }

/-- The marker `matterMessage.Props["matterbridge"] = true` on a fresh map. -/
def bridgeProps : GoMap PropVal := mapSet [] "matterbridge" (PropVal.bool true)

/-- The loop of lines 178-183: every file's URL, when set, is appended to the
message; `none` is the panic of a failed `f.(config.FileInfo)`. -/
def appendURLs : String → List Iface → Option String
  | message, [] => some message
  | message, f :: rest =>
    match f.asFileInfo with
    | none => none
    | some fi => appendURLs (if fi.URL ≠ "" then message ++ fi.URL else message) rest

/-- The webhook posts of lines 171-176, one per message of `HandleExtra`. -/
def extraHookPosts (hlp : Helper) (b : Bmattermost) (msg : Message) : List OMessage :=
  match msg.Extra with
  | none => []
  | some _ =>
    (hlp.HandleExtra msg b.General).map fun rmsg =>
      { IconURL := b.Config.IconURL, Channel := msg.Channel, UserName := rmsg.Username,
        Text := rmsg.Text, Props := bridgeProps }

/-- The webhook post of lines 187-195. -/
def finalHookPost (msg : Message) (message : String) : OMessage :=
  { IconURL := msg.Avatar, Channel := msg.Channel, UserName := msg.Username, Type_ := "",
    Text := message, Props := bridgeProps }

/-- Lines 169-200, the branch `b.Config.WebhookURL != ""`, with `b.mh` there. -/
def sendWebhook (api : Api) (hlp : Helper) (b : Bmattermost) (msg : Message)
    (message : String) : SendResult :=
  let posts := extraHookPosts hlp b msg
  let calls := posts.map Call.hookSend
  let text : Option String :=
    match msg.Extra with
    | none => some message
    | some _ => appendURLs message (extraSlice msg.Extra "file")
  match text with
  | none => { ret := none, calls := calls, avatarMap := b.avatarMap }
  | some t =>
    { ret := some ("", api.hookSend (finalHookPost msg t)),
      calls := calls ++ [Call.hookSend (finalHookPost msg t)],
      avatarMap := b.avatarMap }

/-- The session posts of lines 209-211, one per message of `HandleExtra`. -/
def extraApiPosts (api : Api) (hlp : Helper) (b : Bmattermost) (msg : Message) : List Call :=
  match msg.Extra with
  | none => []
  | some _ =>
    (hlp.HandleExtra msg b.General).map fun rmsg =>
      Call.PostMessage (api.GetChannelId msg.Channel) (rmsg.Username ++ rmsg.Text)

/-- The loop of lines 215-227 from the file `f` on, with `res` and `err` as
they stand and `calls` made so far; after the last file it is the `return res,
err` of line 228. A failed type assertion or a nil `fi.Data` panics. -/
def uploadLoop (api : Api) (b : Bmattermost) (msg : Message) :
    List Iface → String → Option String → List Call → Option (String × Option String) × List Call
  | [], res, err, calls => (some (res, err), calls)
  | f :: rest, _, _, calls =>
    match f.asFileInfo with
    | none => (none, calls)
    | some fi =>
      match fi.Data with
      | none => (none, calls)
      | some data =>
        let channelId := api.GetChannelId msg.Channel
        let up := api.UploadFile data channelId fi.Name
        let calls1 := calls ++ [Call.UploadFile data channelId fi.Name]
        match up.2 with
        | some e => (some ("", some e), calls1)
        | none =>
          let message := if b.Config.PrefixMessagesWithNick then msg.Username ++ fi.Comment
            else fi.Comment
          let posted := api.PostMessageWithFiles channelId message [up.1]
          uploadLoop api b msg rest posted.1 posted.2
            (calls1 ++ [Call.PostMessageWithFiles channelId message [up.1]])

/-- Lines 202-234, the branch of an empty `WebhookURL`, with `b.mc` there. -/
def sendApi (api : Api) (hlp : Helper) (b : Bmattermost) (msg : Message)
    (message : String) : SendResult :=
  if msg.Event = EVENT_MSG_DELETE then
    if msg.ID = "" then
      { ret := some ("", none), calls := [], avatarMap := b.avatarMap }
    else
      { ret := some (msg.ID, api.DeleteMessage msg.ID), calls := [Call.DeleteMessage msg.ID],
        avatarMap := b.avatarMap }
  else
    let posts := extraApiPosts api hlp b msg
    if msg.Extra.isSome ∧ (extraSlice msg.Extra "file").length > 0 then
      let r := uploadLoop api b msg (extraSlice msg.Extra "file") "" none posts
      { ret := r.1, calls := r.2, avatarMap := b.avatarMap }
    else if msg.ID ≠ "" then
      { ret := some (api.EditMessage msg.ID message),
        calls := posts ++ [Call.EditMessage msg.ID message], avatarMap := b.avatarMap }
    else
      { ret := some (api.PostMessage (api.GetChannelId msg.Channel) message),
        calls := posts ++ [Call.PostMessage (api.GetChannelId msg.Channel) message],
        avatarMap := b.avatarMap }

/-- Lines 146-148: a UserAction message has its text wrapped in `*`. -/
def wrapAction (msg : Message) : Message :=
  if msg.Event = EVENT_USER_ACTION then { msg with Text := "*" ++ msg.Text ++ "*" } else msg

/-- Lines 154-163: the avatar confirmation. `msg.Extra["file"][0]` panics on an
empty slice, and the type assertion on a value that is no `FileInfo`. -/
def sendAvatar (b : Bmattermost) (msg : Message) : SendResult :=
  match (extraSlice msg.Extra "file").head? with
  | none => { ret := none, calls := [], avatarMap := b.avatarMap }
  | some f =>
    match f.asFileInfo with
    | none => { ret := none, calls := [], avatarMap := b.avatarMap }
    | some fi =>
      if fi.SHA ≠ "" then
        { ret := some ("", none), calls := [],
          avatarMap := mapSet b.avatarMap msg.UserID fi.SHA }
      else
        { ret := some ("", none), calls := [], avatarMap := b.avatarMap }

/-- Lines 149-150 and 165-167: the text handed to the sink, `msg.Text` with the
nick in front when `PrefixMessagesWithNick` is set. -/
def outText (b : Bmattermost) (msg : Message) : String :=
  if b.Config.PrefixMessagesWithNick then msg.Username ++ msg.Text else msg.Text

/-- The method `Send`. -/
def Send (api : Api) (hlp : Helper) (b : Bmattermost) (msg0 : Message) : SendResult :=
  let msg := wrapAction msg0
  if msg.Event = EVENT_AVATAR_DOWNLOAD then
    sendAvatar b msg
  else
    let message := outText b msg
    if b.Config.WebhookURL ≠ "" then
      onClient b.mh (sendWebhook api hlp b msg message)
    else
      onClient b.mc (sendApi api hlp b msg message)

/-- The state of the adapter after a run of `Send`. -/
def afterSend (b : Bmattermost) (r : SendResult) : Bmattermost :=
  { b with avatarMap := r.avatarMap }

/-! ## The inbound side (mattermost.go 237-344, 388-410) -/

/-- The struct `model.Post`, with the fields the adapter reads. `Props` is a map
that may be nil. -/
structure Post where
  Id : String := ""
  Props : Option (GoMap PropVal) := none
  HasReactions : Bool := false
  FileIds : List String := []
deriving DecidableEq, Repr

/-- The struct `model.WebSocketEvent` behind `message.Raw`: its `Event`, and
`team_id`, the value of `Data["team_id"]` when it is a string (`none` when the
key is missing or holds another type, where `.(string)` panics). -/
structure RawEvent where
  Event : String := ""
  team_id : Option String := none
deriving DecidableEq, Repr

/-- The struct `matterclient.Message`, an event of `b.mc.MessageChan`. `Post` is
a pointer, `none` when nil. `Type_` is its field `Type`. -/
structure ClientMessage where
  Raw : RawEvent := {}
  Post : Option Post := none
  Channel : String := ""
  Username : String := ""
  Text : String := ""
  Type_ : String := ""
  UserID : String := ""
deriving DecidableEq, Repr

/-- What an inbound handler does, in order: a push onto `b.Remote`, a push onto
`mchan`, a call on `b.mc.Client`, or a panic (always last). -/
inductive Eff where
  | remote (m : Message)
  | mchan (m : MMMessage)
  | GetProfileImage (userid : String)
  | GetFileLink (id : String)
  | GetFileInfo (id : String)
  | DownloadFile (id : String)
  | crash
deriving DecidableEq, Repr

/-- The method `handleDownloadAvatar`. -/
def handleDownloadAvatar (api : Api) (b : Bmattermost) (userid channel : String) : List Eff :=
  let msg : Message :=
    { Username := "system", Text := "avatar", Channel := channel, Account := b.Account,
      UserID := userid, Event := EVENT_AVATAR_DOWNLOAD, Extra := some [] }
  match mapGet b.avatarMap userid with
  | some _ => []
  | none =>
    let got := api.GetProfileImage userid
    if (got.1.length : Int) ≤ b.General.MediaDownloadSize then
      let name := userid ++ ".png"
      let file := Iface.fileInfo { Name := name, Data := some got.1, Avatar := true }
      [Eff.GetProfileImage userid,
       Eff.remote { msg with Extra := some (mapSet [] "file" (extraSlice msg.Extra "file" ++ [file])) }]
    else
      [Eff.GetProfileImage userid]

/-- The statement `m.Extra[k] = append(m.Extra[k], v)`. The map of `m` is made
at line 283, so it is never nil here. -/
def extraAppend (e : Option (GoMap (List Iface))) (k : String) (v : Iface) :
    Option (GoMap (List Iface)) :=
  match e with
  | none => none
  | some mp => some (mapSet mp k (mapSlice mp k ++ [v]))

/-- One round of the loop of lines 319-339, for the file `id`: `m` and the
effects so far go in, and come out updated. `int` and `int64` are both `Int`
here: the conversion `int(finfo.Size)` keeps the value where `int` is 64 bits
wide. -/
def fileStep (api : Api) (b : Bmattermost) (message : ClientMessage)
    (st : MMMessage × List Eff) (id : String) : MMMessage × List Eff :=
  let url := api.GetFileLink id
  let info := api.GetFileInfo id
  let tr := st.2 ++ [Eff.GetFileLink id, Eff.GetFileInfo id]
  if info.2.isSome then
    (st.1, tr)
  else if info.1.Size > b.General.MediaDownloadSize then
    let m1 : MMMessage := { st.1 with Event := EVENT_FILE_FAILURE_SIZE }
    let notice : FileInfo :=
      { Name := info.1.Name, Comment := message.Text, Size := info.1.Size }
    ({ m1 with Extra := extraAppend m1.Extra m1.Event (Iface.fileInfo notice) }, tr)
  else
    let got := api.DownloadFile id
    if got.2.isSome then
      (st.1, tr ++ [Eff.DownloadFile id])
    else
      let file : FileInfo :=
        { Name := info.1.Name, Data := some got.1, URL := url, Comment := message.Text }
      ({ st.1 with Extra := extraAppend st.1.Extra "file" (Iface.fileInfo file) },
       tr ++ [Eff.DownloadFile id])

/-- Lines 285-297: the post properties. `none` is the `continue` of line 289;
otherwise the (possibly overridden) user name and `m`. -/
def propsStep (props : Option (GoMap PropVal)) (username : String) (m : MMMessage) :
    Option (String × MMMessage) :=
  match props with
  | none => some (username, m)
  | some p =>
    match mapGet p "matterbridge" with
    | some (PropVal.bool _) => none
    | _ =>
      let username1 :=
        match mapGet p "override_username" with
        | some (PropVal.str s) => s
        | _ => username
      let m1 :=
        match mapGet p "attachments" with
        | some (PropVal.list l) => { m with Extra := m.Extra.map fun mp => mapSet mp "attachments" l }
        | _ => m
      some (username1, m1)

/-- Lines 306-341: the accepted post is turned into `m` and pushed onto `mchan`. -/
def acceptPost (api : Api) (b : Bmattermost) (message : ClientMessage) (post : Post)
    (username : String) (m : MMMessage) : List Eff :=
  let m1 : MMMessage :=
    { m with UserID := message.UserID, Username := username, Channel := message.Channel,
             Text := message.Text, ID := post.Id }
  let m2 : MMMessage :=
    if message.Raw.Event = "post_edited" ∧ ¬ b.Config.EditDisable = true then
      { m1 with Text := message.Text ++ b.Config.EditSuffix }
    else m1
  let m3 : MMMessage :=
    if message.Raw.Event = "post_deleted" then { m2 with Event := EVENT_MSG_DELETE } else m2
  let r := post.FileIds.foldl (fileStep api b message) (m3, [])
  r.2 ++ [Eff.mchan r.1]

/-- Lines 283-342: the part of the loop body after the avatar download. -/
def postStep (api : Api) (b : Bmattermost) (mc : Session) (message : ClientMessage) : List Eff :=
  match message.Post with
  | none => [Eff.crash]
  | some post =>
    match propsStep post.Props message.Username { Extra := some [] } with
    | none => []
    | some (username, m) =>
      if (message.Raw.Event = "posted" ∨ message.Raw.Event = "post_edited" ∨
            message.Raw.Event = "post_deleted") ∧ mc.Username ≠ username then
        match message.Raw.team_id with
        | none => [Eff.crash]
        | some team =>
          if team = b.TeamId then
            if post.HasReactions then [] else acceptPost api b message post username m
          else []
      else []

/-- The body of the loop of `handleMatterClient` for one event `message` of
`b.mc.MessageChan`. -/
def handleMatterClient (api : Api) (b : Bmattermost) (message : ClientMessage) : List Eff :=
  match b.mc with
  | none => [Eff.crash]
  | some mc =>
    if message.Type_ = "system_join_leave" ∨ message.Type_ = "system_join_channel" ∨
        message.Type_ = "system_leave_channel" then
      [Eff.remote { Username := "system", Text := message.Text, Channel := message.Channel,
                    Account := b.Account, Event := EVENT_JOIN_LEAVE }]
    else if message.Raw.Event = "post_edited" ∧ b.Config.EditDisable = true then
      []
    else
      (if b.General.MediaServerUpload ≠ "" then
          handleDownloadAvatar api b message.UserID message.Channel
        else []) ++ postStep api b mc message

/-- The body of the loop of `handleMatter` (lines 251-260) for one `message` of
`mchan`: the message it pushes onto `b.Remote`. -/
def handleMatter (hlp : Helper) (b : Bmattermost) (message : MMMessage) : Message :=
  let avatar := hlp.GetAvatar b.avatarMap message.UserID b.General
  let rmsg : Message :=
    { Username := message.Username, Channel := message.Channel, Account := b.Account,
      UserID := message.UserID, ID := message.ID, Event := message.Event,
      Extra := message.Extra, Avatar := avatar }
  let r := replaceAction message.Text
  let rmsg1 : Message := if r.2 then { rmsg with Event := EVENT_USER_ACTION } else rmsg
  { rmsg1 with Text := r.1 }

/-- The messages that reach `b.Remote` from a trace of `handleMatterClient`:
its own pushes, and for each push onto `mchan` the message `handleMatter`
forwards. -/
def toRemote (hlp : Helper) (b : Bmattermost) : List Eff → List Message
  | [] => []
  | Eff.remote m :: rest => m :: toRemote hlp b rest
  | Eff.mchan m :: rest => handleMatter hlp b m :: toRemote hlp b rest
  | _ :: rest => toRemote hlp b rest

/-- The pushes onto `mchan` in a trace. -/
def toMchan : List Eff → List MMMessage
  | [] => []
  | Eff.mchan m :: rest => m :: toMchan rest
  | _ :: rest => toMchan rest

/-- Spec wording (section 4.5), for comparison with `replaceAction`: the text is
"framed by exactly one leading and one trailing marker character", that is, it
is `*`, then an inner text that neither starts nor ends with `*`, then `*`. -/
def specFramedOnce (text : String) : Bool :=
  match text.data with
  | [] => false
  | c :: rest =>
    c = '*' && rest.getLast? = some '*' && rest.dropLast.head? ≠ some '*' &&
      rest.dropLast.getLast? ≠ some '*'

/-! ## Concrete inputs -/

/-- A server that accepts every login. -/
def acceptAll : LoginApi :=
  { Login := fun _ => none, GetTeamId := fun _ => "team1", Username := fun _ => "bridge" }

/-- Clients whose every call succeeds. -/
def okApi : Api :=
  { hookSend := fun _ => none
    GetChannelId := fun c => "id-" ++ c
    PostMessage := fun _ _ => ("post1", none)
    DeleteMessage := fun _ => none
    EditMessage := fun id _ => (id, none)
    UploadFile := fun _ _ name => ("up-" ++ name, none)
    PostMessageWithFiles := fun _ _ _ => ("post2", none)
    GetProfileImage := fun _ => ([137, 80, 78, 71], none)
    GetFileLink := fun id => "http://mm/files/" ++ id
    GetFileInfo := fun id => ({ Id := id, Name := id ++ ".txt", Size := 100 }, none)
    DownloadFile := fun _ => ([1, 2, 3], none) }

/-- Clients as `okApi`, but the profile image cannot be fetched: the call
returns no bytes and an error. -/
def noImageApi : Api :=
  { okApi with GetProfileImage := fun _ => ([], some "404 Not Found") }

/-- Clients as `okApi`, but the file `big` is reported with 101 bytes. -/
def bigFileApi : Api :=
  { okApi with GetFileInfo := fun id =>
      ({ Id := id, Name := id ++ ".bin", Size := if id = "big" then 101 else 100 }, none) }

/-- Helpers: `HandleExtra` yields no notices, `GetAvatar` no avatar URL. -/
def plainHelper : Helper :=
  { HandleExtra := fun _ _ => [], GetAvatar := fun _ _ _ => "" }

/-- An adapter configured with `WebhookBindAddress` and `Token` only, before
`Connect`. -/
def bindTokenAdapter : Bmattermost :=
  { Config := { WebhookBindAddress := ":9999", Token := "s3cret", Server := "mm.example.com",
                Team := "core" },
    Account := "mattermost.work" }

/-- An adapter logged in as `bridge` in team `team1`, with a media server and a
download ceiling of 100 bytes. -/
def sessionAdapter : Bmattermost :=
  { mc := some { Login := "bridge", Password := "pw", Team := "core",
                 Server := "mm.example.com", Username := "bridge" },
    TeamId := "team1",
    Config := { Login := "bridge", Password := "pw", Server := "mm.example.com", Team := "core" },
    General := { MediaServerUpload := "http://media.example.com", MediaDownloadSize := 100 },
    Account := "mattermost.work" }

/-- The adapter `sessionAdapter` sending through a webhook. -/
def hookAdapter : Bmattermost :=
  { sessionAdapter with
    mh := some { Url := "http://mm.example.com/hooks/x", InsecureSkipVerify := false,
                 DisableServer := true },
    Config := { sessionAdapter.Config with WebhookURL := "http://mm.example.com/hooks/x" } }

/-- An outgoing avatar confirmation for user `u1` with content hash `abc123`. -/
def avatarConfirmation : Message :=
  { Username := "system", Text := "avatar", Channel := "town", UserID := "u1",
    Event := EVENT_AVATAR_DOWNLOAD,
    Extra := some [("file", [Iface.fileInfo { Name := "u1.png", Avatar := true, SHA := "abc123" }])] }

/-- A join event of the channel `town`. -/
def joinEvent : ClientMessage :=
  { Raw := { Event := "posted", team_id := some "team9" }, Channel := "town",
    Username := "alice", Text := "alice joined the channel.", Type_ := "system_join_channel",
    UserID := "u1", Post := some { Id := "p1" } }

/-- A post of `alice` in team `team1` with the text `see attached`. -/
def filePost : ClientMessage :=
  { Raw := { Event := "posted", team_id := some "team1" }, Channel := "town",
    Username := "alice", Text := "see attached", UserID := "u1",
    Post := some { Id := "p7", FileIds := ["small", "big"] } }

/-- An echo of the adapter's own post: written by `bridge`, the session user of
`sessionAdapter`, and carrying the marker `matterbridge`. -/
def echoEvent : ClientMessage :=
  { Raw := { Event := "posted", team_id := some "team1" }, Channel := "town",
    Username := "bridge", Text := "hello from irc", UserID := "u0",
    Post := some { Id := "p2", Props := some [("matterbridge", PropVal.bool true)] } }

/-- A post of `alice` in another team, `team9`. -/
def otherTeamPost : ClientMessage :=
  { Raw := { Event := "posted", team_id := some "team9" }, Channel := "town",
    Username := "alice", Text := "hello", UserID := "u1", Post := some { Id := "p3" } }

/-- The adapter `sessionAdapter` without a media server. -/
def quietAdapter : Bmattermost :=
  { sessionAdapter with General := { MediaServerUpload := "", MediaDownloadSize := 100 } }

/-- The deletion of the post `p9` of `alice`, whose text was `good bye` and
which carried an attachment. -/
def deletedPost : ClientMessage :=
  { Raw := { Event := "post_deleted", team_id := some "team1" }, Channel := "town",
    Username := "alice", Text := "good bye", UserID := "u1",
    Post := some { Id := "p9",
                   Props := some [("attachments", PropVal.list [Iface.other "card"])] } }

/-- An outgoing edit of the post `p5`. -/
def editOfPost : Message :=
  { Text := "fixed typo", Channel := "town", Username := "<bob> ", UserID := "b1", ID := "p5" }

/-- An outgoing deletion of the post `p5`. -/
def deletionOfPost : Message :=
  { Channel := "town", Username := "<bob> ", UserID := "b1", ID := "p5",
    Event := EVENT_MSG_DELETE }

/-- An outgoing message with the ID `p5` and one file. -/
def postWithFile : Message :=
  { Text := "look", Channel := "town", Username := "<bob> ", UserID := "b1", ID := "p5",
    Extra := some [("file", [Iface.fileInfo
      { Name := "a.png", Data := some [1, 2], Comment := "look" }])] }

/-! ## Facts about maps and strings -/

theorem mapGet_mapSet_same {β : Type} (m : GoMap β) (k : String) (v : β) :
    mapGet (mapSet m k v) k = some v := by
  simp [mapSet, mapGet]

theorem mapGet_mapDel_other {β : Type} (m : GoMap β) (k k1 : String) (h : k1 ≠ k) :
    mapGet (mapDel m k) k1 = mapGet m k1 := by
  induction m with
  | nil => rfl
  | cons e rest ih =>
    obtain ⟨a, v⟩ := e
    by_cases ha : a = k
    · subst ha
      have hne : ¬ a = k1 := fun hh => h hh.symm
      simp [mapDel, mapGet, hne, ih]
    · by_cases hk : a = k1
      · subst hk
        simp [mapDel, mapGet, ha]
      · simp [mapDel, mapGet, ha, hk, ih]

theorem mapDel_mapDel {β : Type} (m : GoMap β) (k : String) :
    mapDel (mapDel m k) k = mapDel m k := by
  induction m with
  | nil => rfl
  | cons e rest ih =>
    obtain ⟨a, v⟩ := e
    by_cases ha : a = k
    · simp [mapDel, ha, ih]
    · simp [mapDel, ha, ih]

theorem mapGet_mapSet_other {β : Type} (m : GoMap β) (k k1 : String) (v : β) (h : k1 ≠ k) :
    mapGet (mapSet m k v) k1 = mapGet m k1 := by
  have hne : ¬ k = k1 := fun hh => h hh.symm
  simp [mapSet, mapGet, hne, mapGet_mapDel_other m k k1 h]

theorem mapSet_mapSet_same {β : Type} (m : GoMap β) (k : String) (v : β) :
    mapSet (mapSet m k v) k v = mapSet m k v := by
  simp [mapSet, mapDel, mapDel_mapDel]

theorem isPrefixOf_star (l : List Char) :
    List.isPrefixOf ['*'] l = decide (l.head? = some '*') := by
  cases l with
  | nil => rfl
  | cons c rest =>
    by_cases hc : c = '*'
    · subst hc; simp [List.isPrefixOf]
    · have hc1 : ¬ '*' = c := fun hh => hc hh.symm
      simp [List.isPrefixOf, hc, hc1]

theorem isSuffixOf_star (l : List Char) :
    List.isSuffixOf ['*'] l = decide (l.getLast? = some '*') := by
  have h := isPrefixOf_star l.reverse
  simpa [List.isSuffixOf, List.head?_reverse] using h

/-! ## replaceAction and the action markers -/

/-- C5, the claim as stated fails: the text `**bold**` is not framed by exactly
one leading and one trailing marker (it has two of each), yet `replaceAction`
strips it and raises the flag instead of returning it unchanged. -/
theorem replaceAction_double_marker :
    specFramedOnce "**bold**" = false ∧
      replaceAction "**bold**" = ("bold", true) ∧
      replaceAction "**bold**" ≠ ("**bold**", false) := by
  decide

/-- C5, amended: `replaceAction` strips every `*` and raises the flag exactly
when the text starts with `*` and ends with `*` (however many markers stand at
either end; the one-character text `*` included), so also for every text framed
by exactly one marker at each end; every other text comes back unchanged with
the flag down. `handleMatter` forwards the returned text and sets the kind to
UserAction exactly when the flag is up. `*hello*` gives (`hello`, UserAction)
and `*hi` gives (`*hi`, unchanged kind). -/
theorem replaceAction_marks (text : String) (hlp : Helper) (b : Bmattermost) (m : MMMessage) :
    replaceAction text =
        (if text.data.head? = some '*' ∧ text.data.getLast? = some '*' then
          (String.mk (text.data.filter (fun c => c != '*')), true)
        else (text, false)) ∧
      ((replaceAction text).2 = true → '*' ∉ (replaceAction text).1.data) ∧
      (specFramedOnce text = true → (replaceAction text).2 = true) ∧
      (handleMatter hlp b m).Text = (replaceAction m.Text).1 ∧
      (handleMatter hlp b m).Event =
        (if (replaceAction m.Text).2 = true then EVENT_USER_ACTION else m.Event) ∧
      replaceAction "*hello*" = ("hello", true) ∧
      replaceAction "*hi" = ("*hi", false) := by
  have hdef : replaceAction text =
      (if text.data.head? = some '*' ∧ text.data.getLast? = some '*' then
        (String.mk (text.data.filter (fun c => c != '*')), true)
      else (text, false)) := by
    unfold replaceAction HasPrefix HasSuffix removeAll
    have h1 : ("*" : String).data = ['*'] := rfl
    rw [h1, isPrefixOf_star, isSuffixOf_star]
    by_cases hp : text.data.head? = some '*' <;>
      by_cases hs : text.data.getLast? = some '*' <;> simp [hp, hs]
  refine ⟨hdef, ?_, ?_, ?_, ?_, by decide, by decide⟩
  · intro hflag
    rw [hdef] at hflag ⊢
    by_cases hc : text.data.head? = some '*' ∧ text.data.getLast? = some '*'
    · simp [hc]
    · simp [hc] at hflag
  · intro hs
    rw [hdef]
    have hc : text.data.head? = some '*' ∧ text.data.getLast? = some '*' := by
      unfold specFramedOnce at hs
      cases hd : text.data with
      | nil => simp [hd] at hs
      | cons c rest =>
        simp only [hd, Bool.and_eq_true, decide_eq_true_eq] at hs
        obtain ⟨⟨⟨h1, h2⟩, _⟩, _⟩ := hs
        refine ⟨by simp [h1], ?_⟩
        cases rest with
        | nil => simp at h2
        | cons d rest2 =>
          rw [List.getLast?_cons_cons]
          exact h2
    simp [hc]
  · simp only [handleMatter]
  · simp only [handleMatter]
    by_cases hf : (replaceAction m.Text).2 = true <;> simp [hf]

/-! ## Connect -/

/-- What `Connect` does for each setting of `WebhookBindAddress` (B),
`WebhookURL` (W), `Token` (T) and `Login` (L) when every login succeeds and no
task runs yet: the error returned, the pump `handleMatter` reads from and the
sink `Send` posts to. With B set and W empty, a set T or L leaves `b.mh` as it
was: no webhook client is made for the webhook pump. -/
theorem Connect_table (srv : LoginApi) (b : Bmattermost) (hsrv : ∀ s, srv.Login s = none)
    (htasks : b.tasks = []) :
    (b.Config.WebhookBindAddress ≠ "" → b.Config.WebhookURL ≠ "" →
      (Connect srv b).2 = none ∧
        inboundPump (Connect srv b).1 = some (Pump.webhook (some (hookWithServer b.Config))) ∧
        sinkChoice (Connect srv b).1 = Sink.webhook (some (hookWithServer b.Config))) ∧
    (b.Config.WebhookBindAddress ≠ "" → b.Config.WebhookURL = "" → b.Config.Token = "" →
      b.Config.Login = "" →
      (Connect srv b).2 = none ∧
        inboundPump (Connect srv b).1 = some (Pump.webhook (some (hookWithServer b.Config))) ∧
        sinkChoice (Connect srv b).1 = Sink.sessionApi b.mc) ∧
    (b.Config.WebhookBindAddress ≠ "" → b.Config.WebhookURL = "" →
      (b.Config.Token ≠ "" ∨ b.Config.Login ≠ "") →
      (Connect srv b).2 = none ∧
        inboundPump (Connect srv b).1 = some (Pump.webhook b.mh) ∧
        ∃ mc, sinkChoice (Connect srv b).1 = Sink.sessionApi (some mc)) ∧
    (b.Config.WebhookBindAddress = "" → b.Config.WebhookURL ≠ "" →
      (b.Config.Token ≠ "" ∨ b.Config.Login ≠ "") →
      (Connect srv b).2 = none ∧
        (∃ mc, inboundPump (Connect srv b).1 = some (Pump.session (some mc))) ∧
        sinkChoice (Connect srv b).1 = Sink.webhook (some (hookSendOnly b.Config))) ∧
    (b.Config.WebhookBindAddress = "" → b.Config.WebhookURL ≠ "" → b.Config.Token = "" →
      b.Config.Login = "" →
      (Connect srv b).2 = none ∧ inboundPump (Connect srv b).1 = none ∧
        sinkChoice (Connect srv b).1 = Sink.webhook (some (hookSendOnly b.Config))) ∧
    (b.Config.WebhookBindAddress = "" → b.Config.WebhookURL = "" → b.Config.Token ≠ "" →
      (Connect srv b).2 = none ∧
        ∃ mc, mc.Password = "MMAUTHTOKEN=" ++ b.Config.Token ∧
          inboundPump (Connect srv b).1 = some (Pump.session (some mc)) ∧
          sinkChoice (Connect srv b).1 = Sink.sessionApi (some mc)) ∧
    (b.Config.WebhookBindAddress = "" → b.Config.WebhookURL = "" → b.Config.Token = "" →
      b.Config.Login ≠ "" →
      (Connect srv b).2 = none ∧
        ∃ mc, mc.Login = b.Config.Login ∧ mc.Password = b.Config.Password ∧
          inboundPump (Connect srv b).1 = some (Pump.session (some mc)) ∧
          sinkChoice (Connect srv b).1 = Sink.sessionApi (some mc)) ∧
    (b.Config.WebhookBindAddress = "" → b.Config.WebhookURL = "" → b.Config.Token = "" →
      b.Config.Login = "" →
      (Connect srv b).2 = some noConnectionMethod ∧ (Connect srv b).1 = b) := by
  refine ⟨?_, ?_, ?_, ?_, ?_, ?_, ?_, ?_⟩
  · intro hB hW
    simp [Connect, hB, hW, goHandleMatter, inboundPump, pumpChoice, sinkChoice]
  · intro hB hW hT hL
    simp [Connect, hB, hW, hT, hL, goHandleMatter, inboundPump, pumpChoice, sinkChoice]
  · intro hB hW hTL
    by_cases hT : b.Config.Token = ""
    · have hL : b.Config.Login ≠ "" := by
        rcases hTL with h | h
        · exact absurd hT h
        · exact h
      simp [Connect, hB, hW, hT, hL, loginThenPump, apiLogin, hsrv, goHandleMatter,
        inboundPump, pumpChoice, sinkChoice]
    · simp [Connect, hB, hW, hT, loginThenPump, apiLogin, hsrv, goHandleMatter,
        inboundPump, pumpChoice, sinkChoice]
  · intro hB hW hTL
    by_cases hT : b.Config.Token = ""
    · have hL : b.Config.Login ≠ "" := by
        rcases hTL with h | h
        · exact absurd hT h
        · exact h
      simp [Connect, hB, hW, hT, hL, loginThenPump, apiLogin, hsrv, goHandleMatter,
        inboundPump, pumpChoice, sinkChoice]
    · simp [Connect, hB, hW, hT, loginThenPump, apiLogin, hsrv, goHandleMatter,
        inboundPump, pumpChoice, sinkChoice]
  · intro hB hW hT hL
    simp [Connect, hB, hW, hT, hL, inboundPump, pumpChoice, sinkChoice, htasks]
  · intro hB hW hT
    simp [Connect, hB, hW, hT, loginThenPump, apiLogin, hsrv, goHandleMatter,
      inboundPump, pumpChoice, sinkChoice]
  · intro hB hW hT hL
    simp [Connect, hB, hW, hT, hL, loginThenPump, apiLogin, hsrv, goHandleMatter,
      inboundPump, pumpChoice, sinkChoice]
  · intro hB hW hT hL
    simp [Connect, hB, hW, hT, hL]

/-- C1, at the failing input (bind address and token set, no webhook URL, the
login succeeding): `Connect` returns no error, logs in (the sink of `Send` is
the session client) and starts `handleMatter`, which chooses the webhook pump,
but no webhook client was created (`b.mh` is still nil), so there is no server
on the bind address for that pump to read from. -/
theorem Connect_bind_token_no_hook :
    (Connect acceptAll bindTokenAdapter).2 = none ∧
      (Connect acceptAll bindTokenAdapter).1.mh = none ∧
      inboundPump (Connect acceptAll bindTokenAdapter).1 = some (Pump.webhook none) ∧
      sinkChoice (Connect acceptAll bindTokenAdapter).1 =
        Sink.sessionApi (some
          { Login := "", Password := "MMAUTHTOKEN=s3cret", Team := "core",
            Server := "mm.example.com", Username := "bridge" }) := by
  decide

/-! ## Avatars -/

/-- What decides whether `handleDownloadAvatar` pushes a message: it pushes one
exactly when the user is not cached and the bytes `GetProfileImage` returned are
no longer than `MediaDownloadSize`; whether the fetch reported an error plays no
part. -/
theorem handleDownloadAvatar_pushes_iff (api : Api) (hlp : Helper) (b : Bmattermost)
    (userid channel : String) :
    toRemote hlp b (handleDownloadAvatar api b userid channel) ≠ [] ↔
      mapGet b.avatarMap userid = none ∧
        ((api.GetProfileImage userid).1.length : Int) ≤ b.General.MediaDownloadSize := by
  unfold handleDownloadAvatar
  cases hc : mapGet b.avatarMap userid with
  | some sha => simp [toRemote]
  | none =>
    by_cases h : ((api.GetProfileImage userid).1.length : Int) ≤ b.General.MediaDownloadSize
    · simp [h, toRemote]
    · simp [h, toRemote]

/-- C10, at the failing input (user `u1` not cached, the profile image fetch
failing with an error and no bytes, ceiling 100): `handleDownloadAvatar` still
pushes an AvatarDownload message, with an empty byte payload, onto `b.Remote`. -/
theorem handleDownloadAvatar_failed_fetch_pushes :
    (noImageApi.GetProfileImage "u1").2 = some "404 Not Found" ∧
      handleDownloadAvatar noImageApi sessionAdapter "u1" "town" =
        [Eff.GetProfileImage "u1",
         Eff.remote
           { Username := "system", Text := "avatar", Channel := "town",
             Account := "mattermost.work", UserID := "u1", Event := EVENT_AVATAR_DOWNLOAD,
             Extra := some [("file", [Iface.fileInfo
               { Name := "u1.png", Data := some [], Avatar := true }])] }] := by
  decide

/-- C8: `Send` on an AvatarDownload message whose first file carries the hash
returns (`""`, nil) without any client call, and doing it a second time leaves
`avatarMap` exactly as the first time left it. After it the entry of the user is
the hash when the hash is non-empty, the map is unchanged when it is empty, and
every other entry is as before. -/
theorem Send_avatar_idempotent (api : Api) (hlp : Helper) (b : Bmattermost) (msg : Message)
    (fi : FileInfo) (rest : List Iface) (hE : msg.Event = EVENT_AVATAR_DOWNLOAD)
    (hF : extraSlice msg.Extra "file" = Iface.fileInfo fi :: rest) :
    (Send api hlp b msg).ret = some ("", none) ∧
      (Send api hlp b msg).calls = [] ∧
      (Send api hlp (afterSend b (Send api hlp b msg)) msg).ret = some ("", none) ∧
      (Send api hlp (afterSend b (Send api hlp b msg)) msg).avatarMap =
        (Send api hlp b msg).avatarMap ∧
      (fi.SHA ≠ "" → mapGet (Send api hlp b msg).avatarMap msg.UserID = some fi.SHA) ∧
      (fi.SHA = "" → (Send api hlp b msg).avatarMap = b.avatarMap) ∧
      (∀ k, k ≠ msg.UserID →
        mapGet (Send api hlp b msg).avatarMap k = mapGet b.avatarMap k) := by
  have hne : ¬ msg.Event = EVENT_USER_ACTION := by rw [hE]; decide
  have hw : wrapAction msg = msg := by simp [wrapAction, hne]
  have hS : ∀ b1 : Bmattermost, Send api hlp b1 msg =
      (if fi.SHA ≠ "" then
        { ret := some ("", none), calls := [], avatarMap := mapSet b1.avatarMap msg.UserID fi.SHA }
      else { ret := some ("", none), calls := [], avatarMap := b1.avatarMap }) := by
    intro b1
    simp only [Send, hw, hE, if_true, sendAvatar, hF, List.head?_cons, Iface.asFileInfo]
  by_cases hsha : fi.SHA = ""
  · simp [hS, hsha, afterSend]
  · simp [hS, hsha, afterSend, mapSet_mapSet_same, mapGet_mapSet_same]
    intro k hk
    exact mapGet_mapSet_other _ _ _ _ hk

/-- C8 at a concrete input: the confirmation of hash `abc123` for user `u1` on
an empty cache. -/
theorem Send_avatar_idempotent_witness :
    (Send okApi plainHelper sessionAdapter avatarConfirmation).ret = some ("", none) ∧
      (Send okApi plainHelper sessionAdapter avatarConfirmation).calls = [] ∧
      (Send okApi plainHelper
        (afterSend sessionAdapter (Send okApi plainHelper sessionAdapter avatarConfirmation))
        avatarConfirmation).ret = some ("", none) ∧
      (Send okApi plainHelper
        (afterSend sessionAdapter (Send okApi plainHelper sessionAdapter avatarConfirmation))
        avatarConfirmation).avatarMap =
        (Send okApi plainHelper sessionAdapter avatarConfirmation).avatarMap ∧
      (("abc123" : String) ≠ "" →
        mapGet (Send okApi plainHelper sessionAdapter avatarConfirmation).avatarMap "u1" =
          some "abc123") ∧
      (("abc123" : String) = "" →
        (Send okApi plainHelper sessionAdapter avatarConfirmation).avatarMap = []) ∧
      (∀ k, k ≠ "u1" →
        mapGet (Send okApi plainHelper sessionAdapter avatarConfirmation).avatarMap k =
          mapGet [] k) :=
  Send_avatar_idempotent okApi plainHelper sessionAdapter avatarConfirmation
    { Name := "u1.png", Avatar := true, SHA := "abc123" } [] rfl rfl

/-! ## Join and leave -/

/-- C7: for an event whose type is one of `system_join_leave`,
`system_join_channel` and `system_leave_channel`, `handleMatterClient` does one
thing only: it pushes one message onto `b.Remote`, with kind JoinLeave, user
name `system`, the event's text and the event's channel. Nothing goes onto
`mchan`, so `handleMatter` forwards nothing more for it. -/
theorem joinLeave_one_message (api : Api) (hlp : Helper) (b : Bmattermost) (mc : Session)
    (message : ClientMessage) (hmc : b.mc = some mc)
    (hT : message.Type_ = "system_join_leave" ∨ message.Type_ = "system_join_channel" ∨
      message.Type_ = "system_leave_channel") :
    handleMatterClient api b message =
        [Eff.remote { Username := "system", Text := message.Text, Channel := message.Channel,
                      Account := b.Account, Event := EVENT_JOIN_LEAVE }] ∧
      toRemote hlp b (handleMatterClient api b message) =
        [{ Username := "system", Text := message.Text, Channel := message.Channel,
           Account := b.Account, Event := EVENT_JOIN_LEAVE }] ∧
      toMchan (handleMatterClient api b message) = [] := by
  have h : handleMatterClient api b message =
      [Eff.remote { Username := "system", Text := message.Text, Channel := message.Channel,
                    Account := b.Account, Event := EVENT_JOIN_LEAVE }] := by
    simp only [handleMatterClient, hmc, hT, if_true]
  rw [h]
  exact ⟨rfl, rfl, rfl⟩

/-- C7 at a concrete input: a `system_join_channel` event of the channel
`town`. -/
theorem joinLeave_one_message_witness :
    handleMatterClient okApi sessionAdapter joinEvent =
        [Eff.remote { Username := "system", Text := "alice joined the channel.",
                      Channel := "town", Account := "mattermost.work",
                      Event := EVENT_JOIN_LEAVE }] ∧
      toRemote plainHelper sessionAdapter (handleMatterClient okApi sessionAdapter joinEvent) =
        [{ Username := "system", Text := "alice joined the channel.", Channel := "town",
           Account := "mattermost.work", Event := EVENT_JOIN_LEAVE }] ∧
      toMchan (handleMatterClient okApi sessionAdapter joinEvent) = [] :=
  joinLeave_one_message okApi plainHelper sessionAdapter _ joinEvent rfl (Or.inr (Or.inl rfl))

/-! ## The file loop -/

theorem extraSlice_extraAppend_same (mp : GoMap (List Iface)) (k : String) (v : Iface) :
    extraSlice (extraAppend (some mp) k v) k = extraSlice (some mp) k ++ [v] := by
  simp [extraSlice, extraAppend, mapSlice, mapGet_mapSet_same]

theorem extraSlice_extraAppend_other (mp : GoMap (List Iface)) (k k1 : String) (v : Iface)
    (h : k1 ≠ k) :
    extraSlice (extraAppend (some mp) k v) k1 = extraSlice (some mp) k1 := by
  simp [extraSlice, extraAppend, mapSlice, mapGet_mapSet_other _ _ _ _ h]

theorem fileStep_extra_isSome (api : Api) (b : Bmattermost) (message : ClientMessage)
    (st : MMMessage × List Eff) (id : String) (h : st.1.Extra.isSome = true) :
    (fileStep api b message st id).1.Extra.isSome = true := by
  obtain ⟨mp, hmp⟩ := Option.isSome_iff_exists.mp h
  unfold fileStep
  by_cases h1 : (api.GetFileInfo id).2.isSome = true
  · simp [h1, h]
  · by_cases h2 : (api.GetFileInfo id).1.Size > b.General.MediaDownloadSize
    · simp [h1, h2, hmp, extraAppend]
    · by_cases h3 : (api.DownloadFile id).2.isSome = true
      · simp [h1, h2, h3, h]
      · simp [h1, h2, h3, hmp, extraAppend]

theorem fileLoop_extra_isSome (api : Api) (b : Bmattermost) (message : ClientMessage)
    (ids : List String) (st : MMMessage × List Eff) (h : st.1.Extra.isSome = true) :
    (ids.foldl (fileStep api b message) st).1.Extra.isSome = true := by
  induction ids generalizing st with
  | nil => exact h
  | cons id rest ih => exact ih _ (fileStep_extra_isSome api b message st id h)

/-- C6: in the loop over the file references of an accepted post (`m` is the
message of line 283, whose map is made; `pre` are the references already done),
for a reference `id` whose `GetFileInfo` succeeds, with `c = MediaDownloadSize`:
if the reported size is at most `c` the round calls `DownloadFile id` and, when
that succeeds, appends to `Extra["file"]` a `FileInfo` with the file's name, the
downloaded bytes, the file link and the post text as comment; if the size is
greater than `c` the round makes no `DownloadFile` call, sets `m.Event` to
FileTooLarge and appends to `Extra[FileTooLarge]` one `FileInfo` with the file's
name, the post text as comment, the reported size and no bytes, leaving
`Extra["file"]` as it was. -/
theorem fileLoop_size_ceiling (api : Api) (b : Bmattermost) (message : ClientMessage)
    (m : MMMessage) (pre : List String) (id : String) (hm : m.Extra.isSome = true)
    (hok : (api.GetFileInfo id).2 = none) :
    ((api.GetFileInfo id).1.Size ≤ b.General.MediaDownloadSize →
      (fileStep api b message (pre.foldl (fileStep api b message) (m, [])) id).2 =
          (pre.foldl (fileStep api b message) (m, [])).2 ++
            [Eff.GetFileLink id, Eff.GetFileInfo id, Eff.DownloadFile id] ∧
        ((api.DownloadFile id).2 = none →
          extraSlice (fileStep api b message (pre.foldl (fileStep api b message) (m, [])) id).1.Extra
              "file" =
            extraSlice (pre.foldl (fileStep api b message) (m, [])).1.Extra "file" ++
              [Iface.fileInfo
                { Name := (api.GetFileInfo id).1.Name, Data := some (api.DownloadFile id).1,
                  URL := api.GetFileLink id, Comment := message.Text }])) ∧
    ((api.GetFileInfo id).1.Size > b.General.MediaDownloadSize →
      (fileStep api b message (pre.foldl (fileStep api b message) (m, [])) id).2 =
          (pre.foldl (fileStep api b message) (m, [])).2 ++
            [Eff.GetFileLink id, Eff.GetFileInfo id] ∧
        (fileStep api b message (pre.foldl (fileStep api b message) (m, [])) id).1.Event =
          EVENT_FILE_FAILURE_SIZE ∧
        extraSlice (fileStep api b message (pre.foldl (fileStep api b message) (m, [])) id).1.Extra
            EVENT_FILE_FAILURE_SIZE =
          extraSlice (pre.foldl (fileStep api b message) (m, [])).1.Extra
              EVENT_FILE_FAILURE_SIZE ++
            [Iface.fileInfo
              { Name := (api.GetFileInfo id).1.Name, Data := none, Comment := message.Text,
                Size := (api.GetFileInfo id).1.Size }] ∧
        extraSlice (fileStep api b message (pre.foldl (fileStep api b message) (m, [])) id).1.Extra
            "file" =
          extraSlice (pre.foldl (fileStep api b message) (m, [])).1.Extra "file") := by
  have hsome := fileLoop_extra_isSome api b message pre (m, []) hm
  obtain ⟨mp, hmp⟩ := Option.isSome_iff_exists.mp hsome
  generalize pre.foldl (fileStep api b message) (m, []) = st at hmp ⊢
  constructor
  · intro hle
    have hng : ¬ (api.GetFileInfo id).1.Size > b.General.MediaDownloadSize := not_lt.mpr hle
    constructor
    · unfold fileStep
      by_cases h3 : (api.DownloadFile id).2.isSome = true
      · simp [hok, hng, h3]
      · simp [hok, hng, h3]
    · intro hdl
      unfold fileStep
      simp only [hok, hng, hdl, Option.isSome_none, if_false, hmp, Bool.false_eq_true]
      exact extraSlice_extraAppend_same mp "file" _
  · intro hgt
    unfold fileStep
    simp only [hok, hgt, Option.isSome_none, if_false, if_true, hmp, Bool.false_eq_true]
    refine ⟨by simp, trivial, ?_, ?_⟩
    · exact extraSlice_extraAppend_same mp EVENT_FILE_FAILURE_SIZE _
    · exact extraSlice_extraAppend_other mp EVENT_FILE_FAILURE_SIZE "file" _ (by decide)

/-- C6 at concrete inputs, ceiling 100: the file `small`, reported with exactly
100 bytes, is fetched and attached; the file `big`, reported with 101 bytes, is
not fetched and gives a FileTooLarge entry of size 101 without bytes. -/
theorem fileLoop_size_ceiling_witness :
    ((fileStep bigFileApi sessionAdapter filePost ({ Extra := some [] }, []) "small").2 =
        [Eff.GetFileLink "small", Eff.GetFileInfo "small", Eff.DownloadFile "small"] ∧
      extraSlice
          (fileStep bigFileApi sessionAdapter filePost ({ Extra := some [] }, []) "small").1.Extra
          "file" =
        [Iface.fileInfo { Name := "small.bin", Data := some [1, 2, 3],
                          URL := "http://mm/files/small", Comment := "see attached" }]) ∧
    ((fileStep bigFileApi sessionAdapter filePost
          (fileStep bigFileApi sessionAdapter filePost ({ Extra := some [] }, []) "small")
          "big").1.Event = EVENT_FILE_FAILURE_SIZE ∧
      extraSlice
          (fileStep bigFileApi sessionAdapter filePost
            (fileStep bigFileApi sessionAdapter filePost ({ Extra := some [] }, []) "small")
            "big").1.Extra EVENT_FILE_FAILURE_SIZE =
        [Iface.fileInfo { Name := "big.bin", Data := none, Comment := "see attached",
                          Size := 101 }]) :=
  ⟨⟨((fileLoop_size_ceiling bigFileApi sessionAdapter filePost { Extra := some [] } []
        "small" rfl rfl).1 (by decide)).1,
    ((fileLoop_size_ceiling bigFileApi sessionAdapter filePost { Extra := some [] } []
        "small" rfl rfl).1 (by decide)).2 rfl⟩,
   ((fileLoop_size_ceiling bigFileApi sessionAdapter filePost { Extra := some [] } ["small"]
        "big" rfl rfl).2 (by decide)).2.1,
   ((fileLoop_size_ceiling bigFileApi sessionAdapter filePost { Extra := some [] } ["small"]
        "big" rfl rfl).2 (by decide)).2.2.1⟩

/-! ## The inbound filters -/

theorem toRemote_append (hlp : Helper) (b : Bmattermost) (t1 t2 : List Eff) :
    toRemote hlp b (t1 ++ t2) = toRemote hlp b t1 ++ toRemote hlp b t2 := by
  induction t1 with
  | nil => rfl
  | cons e rest ih => cases e <;> simp [toRemote, ih]

theorem toMchan_append (t1 t2 : List Eff) :
    toMchan (t1 ++ t2) = toMchan t1 ++ toMchan t2 := by
  induction t1 with
  | nil => rfl
  | cons e rest ih => cases e <;> simp [toMchan, ih]

theorem avatar_toMchan (api : Api) (b : Bmattermost) (userid channel : String) :
    toMchan (handleDownloadAvatar api b userid channel) = [] := by
  unfold handleDownloadAvatar
  cases mapGet b.avatarMap userid with
  | some sha => rfl
  | none =>
    by_cases h : ((api.GetProfileImage userid).1.length : Int) ≤ b.General.MediaDownloadSize
    · simp [h, toMchan]
    · simp [h, toMchan]

theorem avatar_toRemote (api : Api) (hlp : Helper) (b : Bmattermost) (userid channel : String) :
    ∀ r ∈ toRemote hlp b (handleDownloadAvatar api b userid channel),
      r.Event = EVENT_AVATAR_DOWNLOAD := by
  unfold handleDownloadAvatar
  cases mapGet b.avatarMap userid with
  | some sha => simp [toRemote]
  | none =>
    by_cases h : ((api.GetProfileImage userid).1.length : Int) ≤ b.General.MediaDownloadSize
    · simp [h, toRemote]
    · simp [h, toRemote]

theorem avatar_cached (api : Api) (b : Bmattermost) (userid channel : String)
    (h : (mapGet b.avatarMap userid).isSome = true) :
    handleDownloadAvatar api b userid channel = [] := by
  obtain ⟨sha, hsha⟩ := Option.isSome_iff_exists.mp h
  simp [handleDownloadAvatar, hsha]

/-- The avatar part of the loop body of `handleMatterClient` (lines 279-281). -/
theorem avatarPart_spec (api : Api) (hlp : Helper) (b : Bmattermost) (userid channel : String) :
    toMchan (if b.General.MediaServerUpload ≠ "" then
        handleDownloadAvatar api b userid channel else []) = [] ∧
      (∀ r ∈ toRemote hlp b (if b.General.MediaServerUpload ≠ "" then
          handleDownloadAvatar api b userid channel else []),
        r.Event = EVENT_AVATAR_DOWNLOAD) ∧
      (b.General.MediaServerUpload = "" ∨ (mapGet b.avatarMap userid).isSome = true →
        (if b.General.MediaServerUpload ≠ "" then
          handleDownloadAvatar api b userid channel else []) = []) := by
  by_cases hm : b.General.MediaServerUpload = ""
  · simp [hm, toMchan, toRemote]
  · simp only [ne_eq, hm, not_false_eq_true, if_true, false_or]
    exact ⟨avatar_toMchan api b userid channel, avatar_toRemote api hlp b userid channel,
      avatar_cached api b userid channel⟩

/-- What `handleMatterClient` does once `postStep` is known to do nothing that
reaches a channel. -/
theorem handleMatterClient_filtered (api : Api) (hlp : Helper) (b : Bmattermost) (mc : Session)
    (message : ClientMessage) (hmc : b.mc = some mc)
    (hpost : toMchan (postStep api b mc message) = [] ∧
      toRemote hlp b (postStep api b mc message) = []) :
    toMchan (handleMatterClient api b message) = [] ∧
      (∀ r ∈ toRemote hlp b (handleMatterClient api b message),
        r.Event = EVENT_JOIN_LEAVE ∨ r.Event = EVENT_AVATAR_DOWNLOAD) ∧
      (¬ (message.Type_ = "system_join_leave" ∨ message.Type_ = "system_join_channel" ∨
            message.Type_ = "system_leave_channel") →
        (b.General.MediaServerUpload = "" ∨
            (mapGet b.avatarMap message.UserID).isSome = true) →
        toRemote hlp b (handleMatterClient api b message) = []) := by
  obtain ⟨hav1, hav2, hav3⟩ := avatarPart_spec api hlp b message.UserID message.Channel
  unfold handleMatterClient
  simp only [hmc]
  by_cases hT : message.Type_ = "system_join_leave" ∨ message.Type_ = "system_join_channel" ∨
      message.Type_ = "system_leave_channel"
  · simp [hT, toMchan, toRemote]
  · by_cases hE : message.Raw.Event = "post_edited" ∧ b.Config.EditDisable = true
    · simp [hT, hE, toMchan, toRemote]
    · simp only [hT, hE, if_false, toMchan_append, toRemote_append, hpost.1, hpost.2,
        List.append_nil, not_false_eq_true, true_implies]
      refine ⟨hav1, fun r hr => Or.inr (hav2 r hr), fun hc => ?_⟩
      rw [hav3 hc]
      rfl

/-- C3, the claim as stated fails: the event `echoEvent` is written by the
session user `bridge` and carries the marker, yet with a media server
configured and the user not cached `handleDownloadAvatar`, which runs before the
marker is looked at, pushes an AvatarDownload message onto `b.Remote`. -/
theorem selfEcho_avatar_reaches_remote :
    sessionAdapter.mc.map (fun mc => mc.Username) = some echoEvent.Username ∧
      echoEvent.Post.map (fun p => p.Props) =
        some (some [("matterbridge", PropVal.bool true)]) ∧
      toRemote plainHelper sessionAdapter (handleMatterClient okApi sessionAdapter echoEvent) =
        [{ Username := "system", Text := "avatar", Channel := "town",
           Account := "mattermost.work", UserID := "u0", Event := EVENT_AVATAR_DOWNLOAD,
           Extra := some [("file", [Iface.fileInfo
             { Name := "u0.png", Data := some [137, 80, 78, 71], Avatar := true }])] }] := by
  decide

/-- C3, amended: for every inbound session event whose post properties carry
the marker `matterbridge` (a bool), so also for every such event written by the
adapter's own session user, whatever its type, text, channel and the
configuration:
nothing is pushed onto `mchan`, so `handleMatter` forwards no message of that
event; a message that reaches `b.Remote` is a JoinLeave message (sent at once
for the join/leave types) or the AvatarDownload message of
`handleDownloadAvatar` (sent before the marker is looked at); and when the type
is not a join/leave type and no media server is configured or the user's avatar
is cached, nothing at all reaches `b.Remote`. -/
theorem selfEcho_dropped (api : Api) (hlp : Helper) (b : Bmattermost) (mc : Session)
    (message : ClientMessage) (post : Post) (p : GoMap PropVal) (v : Bool)
    (hmc : b.mc = some mc) (hpost : message.Post = some post) (hprops : post.Props = some p)
    (hmark : mapGet p "matterbridge" = some (PropVal.bool v)) :
    toMchan (handleMatterClient api b message) = [] ∧
      (∀ r ∈ toRemote hlp b (handleMatterClient api b message),
        r.Event = EVENT_JOIN_LEAVE ∨ r.Event = EVENT_AVATAR_DOWNLOAD) ∧
      (¬ (message.Type_ = "system_join_leave" ∨ message.Type_ = "system_join_channel" ∨
            message.Type_ = "system_leave_channel") →
        (b.General.MediaServerUpload = "" ∨
            (mapGet b.avatarMap message.UserID).isSome = true) →
        toRemote hlp b (handleMatterClient api b message) = []) := by
  apply handleMatterClient_filtered api hlp b mc message hmc
  have h : postStep api b mc message = [] := by
    simp [postStep, hpost, propsStep, hprops, hmark]
  rw [h]
  exact ⟨rfl, rfl⟩

/-- C3 at a concrete input: the event `echoEvent` on `sessionAdapter`. -/
theorem selfEcho_dropped_witness :
    toMchan (handleMatterClient okApi sessionAdapter echoEvent) = [] ∧
      (∀ r ∈ toRemote plainHelper sessionAdapter
          (handleMatterClient okApi sessionAdapter echoEvent),
        r.Event = EVENT_JOIN_LEAVE ∨ r.Event = EVENT_AVATAR_DOWNLOAD) :=
  ⟨(selfEcho_dropped okApi plainHelper sessionAdapter _ echoEvent _ _ true rfl rfl rfl
      rfl).1,
   (selfEcho_dropped okApi plainHelper sessionAdapter _ echoEvent _ _ true rfl rfl rfl
      rfl).2.1⟩

/-- C4, the claim as stated fails: the event `joinEvent` has the team id `team9`
while the adapter recorded `team1` at login, yet its JoinLeave message is pushed
onto `b.Remote`: the join/leave types are sent before the team is compared. -/
theorem otherTeam_joinLeave_reaches_remote :
    joinEvent.Raw.team_id = some "team9" ∧ sessionAdapter.TeamId = "team1" ∧
      toRemote plainHelper sessionAdapter (handleMatterClient okApi sessionAdapter joinEvent) =
        [{ Username := "system", Text := "alice joined the channel.", Channel := "town",
           Account := "mattermost.work", Event := EVENT_JOIN_LEAVE }] := by
  decide

/-- C4, amended: for every inbound session event whose `team_id` differs from
the `TeamId` recorded at login, whatever its type, author, text, properties and
the configuration: nothing is pushed onto `mchan`, so no text message of that
event reaches the gateway; a message that reaches `b.Remote` is a JoinLeave
message (sent at once for the join/leave types) or the AvatarDownload message of
`handleDownloadAvatar`, both sent before the team is compared; and when the type
is not a join/leave type and no media server is configured or the user's avatar
is cached, nothing at all reaches `b.Remote`. -/
theorem otherTeam_dropped (api : Api) (hlp : Helper) (b : Bmattermost) (mc : Session)
    (message : ClientMessage) (team : String)
    (hmc : b.mc = some mc) (hteam : message.Raw.team_id = some team)
    (hne : team ≠ b.TeamId) :
    toMchan (handleMatterClient api b message) = [] ∧
      (∀ r ∈ toRemote hlp b (handleMatterClient api b message),
        r.Event = EVENT_JOIN_LEAVE ∨ r.Event = EVENT_AVATAR_DOWNLOAD) ∧
      (¬ (message.Type_ = "system_join_leave" ∨ message.Type_ = "system_join_channel" ∨
            message.Type_ = "system_leave_channel") →
        (b.General.MediaServerUpload = "" ∨
            (mapGet b.avatarMap message.UserID).isSome = true) →
        toRemote hlp b (handleMatterClient api b message) = []) := by
  apply handleMatterClient_filtered api hlp b mc message hmc
  cases hP : message.Post with
  | none => simp [postStep, hP, toMchan, toRemote]
  | some post =>
    cases hS : propsStep post.Props message.Username { Extra := some [] } with
    | none => simp [postStep, hP, hS, toMchan, toRemote]
    | some um =>
      obtain ⟨username, m⟩ := um
      by_cases hc : (message.Raw.Event = "posted" ∨ message.Raw.Event = "post_edited" ∨
          message.Raw.Event = "post_deleted") ∧ mc.Username ≠ username
      · simp [postStep, hP, hS, hc, hteam, hne, toMchan, toRemote]
      · simp [postStep, hP, hS, hc, toMchan, toRemote]

/-- C4 at a concrete input: the post `otherTeamPost` of team `team9` on
`sessionAdapter`, whose team is `team1`. -/
theorem otherTeam_dropped_witness :
    toMchan (handleMatterClient okApi sessionAdapter otherTeamPost) = [] ∧
      (∀ r ∈ toRemote plainHelper sessionAdapter
          (handleMatterClient okApi sessionAdapter otherTeamPost),
        r.Event = EVENT_JOIN_LEAVE ∨ r.Event = EVENT_AVATAR_DOWNLOAD) :=
  ⟨(otherTeam_dropped okApi plainHelper sessionAdapter _ otherTeamPost "team9" rfl rfl
      (by decide)).1,
   (otherTeam_dropped okApi plainHelper sessionAdapter _ otherTeamPost "team9" rfl rfl
      (by decide)).2.1⟩

/-! ## Deleted posts -/

theorem fileStep_fields (api : Api) (b : Bmattermost) (message : ClientMessage)
    (st : MMMessage × List Eff) (id : String) :
    (fileStep api b message st id).1.ID = st.1.ID ∧
      (fileStep api b message st id).1.Text = st.1.Text ∧
      toMchan (fileStep api b message st id).2 = toMchan st.2 ∧
      (∀ (hlp : Helper), toRemote hlp b (fileStep api b message st id).2 = toRemote hlp b st.2) ∧
      (((api.GetFileInfo id).2 = none →
          (api.GetFileInfo id).1.Size ≤ b.General.MediaDownloadSize) →
        (fileStep api b message st id).1.Event = st.1.Event) := by
  unfold fileStep
  by_cases h1 : (api.GetFileInfo id).2.isSome = true
  · simp [h1, toMchan_append, toRemote_append, toMchan, toRemote]
  · have h1n : (api.GetFileInfo id).2 = none := by
      cases h : (api.GetFileInfo id).2 with
      | none => rfl
      | some e => simp [h] at h1
    by_cases h2 : (api.GetFileInfo id).1.Size > b.General.MediaDownloadSize
    · have hcontra : ¬ ((api.GetFileInfo id).2 = none →
          (api.GetFileInfo id).1.Size ≤ b.General.MediaDownloadSize) :=
        fun hno => absurd (hno h1n) (not_le.mpr h2)
      refine ⟨?_, ?_, ?_, ?_, fun hno => absurd hno hcontra⟩
      · simp [h1, h2]
      · simp [h1, h2]
      · simp [h1, h2, toMchan_append, toMchan]
      · simp [h1, h2, toRemote_append, toRemote]
    · by_cases h3 : (api.DownloadFile id).2.isSome = true
      · simp [h1, h2, h3, toMchan_append, toRemote_append, toMchan, toRemote]
      · simp [h1, h2, h3, toMchan_append, toRemote_append, toMchan, toRemote]

theorem handleMatter_fields (hlp : Helper) (b : Bmattermost) (m : MMMessage) :
    (handleMatter hlp b m).ID = m.ID ∧ (handleMatter hlp b m).Extra = m.Extra ∧
      (handleMatter hlp b m).Text = (replaceAction m.Text).1 ∧
      (handleMatter hlp b m).Event =
        (if (replaceAction m.Text).2 = true then EVENT_USER_ACTION else m.Event) := by
  simp only [handleMatter]
  by_cases hf : (replaceAction m.Text).2 = true <;> simp [hf]

theorem fileLoop_fields (api : Api) (b : Bmattermost) (message : ClientMessage)
    (ids : List String) (st : MMMessage × List Eff) :
    (ids.foldl (fileStep api b message) st).1.ID = st.1.ID ∧
      (ids.foldl (fileStep api b message) st).1.Text = st.1.Text ∧
      toMchan (ids.foldl (fileStep api b message) st).2 = toMchan st.2 ∧
      (∀ (hlp : Helper),
        toRemote hlp b (ids.foldl (fileStep api b message) st).2 = toRemote hlp b st.2) ∧
      ((∀ id ∈ ids, (api.GetFileInfo id).2 = none →
          (api.GetFileInfo id).1.Size ≤ b.General.MediaDownloadSize) →
        (ids.foldl (fileStep api b message) st).1.Event = st.1.Event) := by
  induction ids generalizing st with
  | nil => exact ⟨rfl, rfl, rfl, fun _ => rfl, fun _ => rfl⟩
  | cons id rest ih =>
    obtain ⟨s1, s2, s3, s4, s5⟩ := fileStep_fields api b message st id
    obtain ⟨r1, r2, r3, r4, r5⟩ := ih (fileStep api b message st id)
    simp only [List.foldl_cons]
    refine ⟨r1.trans s1, r2.trans s2, r3.trans s3, fun hlp => (r4 hlp).trans (s4 hlp),
      fun hno => ?_⟩
    rw [r5 (fun i hi => hno i (List.mem_cons_of_mem _ hi)), s5 (hno id (List.mem_cons_self _ _))]

/-- C9, the claim as stated fails: for the deletion `deletedPost`, whose post had
the text `good bye` and an attachment, the message delivered to `b.Remote` has
kind MessageDelete and the ID `p9`, but its `Text` is `good bye`, not empty, and
its `Extra` holds the attachment. -/
theorem deleted_post_keeps_text_and_extra :
    toRemote plainHelper quietAdapter (handleMatterClient okApi quietAdapter deletedPost) =
      [{ Username := "alice", Channel := "town", Account := "mattermost.work", UserID := "u1",
         ID := "p9", Event := EVENT_MSG_DELETE, Text := "good bye",
         Extra := some [("attachments", [Iface.other "card"])] }] := by
  decide

/-- C9, amended: for every `post_deleted` session event that passes the inbound
filters (not a join/leave type, no marker in the properties so that lines
285-297 yield the user name `username` and the message `m`, an author other than
the session user, the team of the login, no reactions), `handleMatterClient`
pushes exactly one message onto `mchan` and `handleMatter` forwards it after the
avatar message, if any. The forwarded message has the deleted post's ID; its
`Text` is the event's text as `replaceAction` returns it and its `Extra` is that
of the pushed message (the attachments of the properties, and the files of the
loop; with no file references on the post exactly the `Extra` of `m`). When no
file of the post is reported oversize and the text is not framed by `*`, its
kind is MessageDelete and its `Text` is the event's text. -/
theorem deleted_post_message (api : Api) (hlp : Helper) (b : Bmattermost) (mc : Session)
    (message : ClientMessage) (post : Post) (username : String) (m : MMMessage)
    (hmc : b.mc = some mc)
    (hT : ¬ (message.Type_ = "system_join_leave" ∨ message.Type_ = "system_join_channel" ∨
      message.Type_ = "system_leave_channel"))
    (hE : message.Raw.Event = "post_deleted") (hpost : message.Post = some post)
    (hS : propsStep post.Props message.Username { Extra := some [] } = some (username, m))
    (hu : mc.Username ≠ username) (hteam : message.Raw.team_id = some b.TeamId)
    (hR : post.HasReactions = false) :
    ∃ pushed : MMMessage,
      toMchan (handleMatterClient api b message) = [pushed] ∧
      toRemote hlp b (handleMatterClient api b message) =
        toRemote hlp b (if b.General.MediaServerUpload ≠ "" then
            handleDownloadAvatar api b message.UserID message.Channel else []) ++
          [handleMatter hlp b pushed] ∧
      (handleMatter hlp b pushed).ID = post.Id ∧
      (handleMatter hlp b pushed).Text = (replaceAction message.Text).1 ∧
      (handleMatter hlp b pushed).Extra = pushed.Extra ∧
      (post.FileIds = [] → pushed.Extra = m.Extra) ∧
      ((∀ id ∈ post.FileIds, (api.GetFileInfo id).2 = none →
          (api.GetFileInfo id).1.Size ≤ b.General.MediaDownloadSize) →
        (replaceAction message.Text).2 = false →
        (handleMatter hlp b pushed).Event = EVENT_MSG_DELETE ∧
          (handleMatter hlp b pushed).Text = message.Text) := by
  have hE2 : ¬ (message.Raw.Event = "post_edited" ∧ b.Config.EditDisable = true) := by
    rw [hE]; simp
  have hE3 : ¬ (message.Raw.Event = "post_edited" ∧ ¬ b.Config.EditDisable = true) := by
    rw [hE]; simp
  have hc : (message.Raw.Event = "posted" ∨ message.Raw.Event = "post_edited" ∨
      message.Raw.Event = "post_deleted") ∧ mc.Username ≠ username :=
    ⟨Or.inr (Or.inr hE), hu⟩
  obtain ⟨hav, _, _⟩ := avatarPart_spec api hlp b message.UserID message.Channel
  have hstep : postStep api b mc message = acceptPost api b message post username m := by
    simp [postStep, hpost, hS, hc, hteam, hR]
  have hmain : handleMatterClient api b message =
      (if b.General.MediaServerUpload ≠ "" then
          handleDownloadAvatar api b message.UserID message.Channel else []) ++
        acceptPost api b message post username m := by
    simp only [handleMatterClient, hmc, hT, hE2, if_false, hstep]
  let m3 : MMMessage :=
    { m with UserID := message.UserID, Username := username, Channel := message.Channel,
             Text := message.Text, ID := post.Id, Event := EVENT_MSG_DELETE }
  have hacc : acceptPost api b message post username m =
      (post.FileIds.foldl (fileStep api b message) (m3, [])).2 ++
        [Eff.mchan (post.FileIds.foldl (fileStep api b message) (m3, [])).1] := by
    simp [acceptPost, hE, m3]
  obtain ⟨f1, f2, f3, f4, f5⟩ := fileLoop_fields api b message post.FileIds (m3, [])
  obtain ⟨g1, g2, g3, g4⟩ :=
    handleMatter_fields hlp b (post.FileIds.foldl (fileStep api b message) (m3, [])).1
  refine ⟨(post.FileIds.foldl (fileStep api b message) (m3, [])).1, ?_, ?_, ?_, ?_, g2, ?_, ?_⟩
  · rw [hmain, hacc, toMchan_append, toMchan_append, hav, f3]
    rfl
  · rw [hmain, hacc, toRemote_append, toRemote_append, f4 hlp]
    rfl
  · rw [g1]
    exact f1
  · rw [g3, f2]
  · intro hnil
    rw [hnil]
    rfl
  · intro hno hflag
    have htext : (replaceAction message.Text).1 = message.Text := by
      unfold replaceAction at hflag ⊢
      by_cases hh : (HasPrefix message.Text "*" && HasSuffix message.Text "*") = true
      · simp [hh] at hflag
      · simp [hh]
    have hflag2 :
        ¬ (replaceAction (post.FileIds.foldl (fileStep api b message) (m3, [])).1.Text).2 =
          true := by
      rw [f2]
      simp [m3, hflag]
    constructor
    · rw [g4, if_neg hflag2]
      exact f5 hno
    · rw [g3, f2]
      exact htext

/-- C9 at a concrete input: the deletion `deletedPost` on `quietAdapter`. -/
theorem deleted_post_message_witness :
    ∃ pushed : MMMessage,
      toMchan (handleMatterClient okApi quietAdapter deletedPost) = [pushed] ∧
      (handleMatter plainHelper quietAdapter pushed).ID = "p9" ∧
      (handleMatter plainHelper quietAdapter pushed).Event = EVENT_MSG_DELETE ∧
      (handleMatter plainHelper quietAdapter pushed).Text = "good bye" := by
  obtain ⟨pushed, h1, _, h3, _, _, _, h7⟩ :=
    deleted_post_message okApi plainHelper quietAdapter
      { Login := "bridge", Password := "pw", Team := "core", Server := "mm.example.com",
        Username := "bridge" }
      deletedPost { Id := "p9", Props := some [("attachments", PropVal.list [Iface.other "card"])] }
      "alice" { Extra := some [("attachments", [Iface.other "card"])] }
      rfl (by decide) rfl rfl (by decide) (by decide) rfl rfl
  exact ⟨pushed, h1, h3, (h7 (by simp) (by decide)).1, (h7 (by simp) (by decide)).2⟩

/-! ## Send -/

theorem wrapAction_fields (msg : Message) :
    (wrapAction msg).ID = msg.ID ∧ (wrapAction msg).Event = msg.Event ∧
      (wrapAction msg).Extra = msg.Extra ∧ (wrapAction msg).Channel = msg.Channel ∧
      (wrapAction msg).Username = msg.Username := by
  unfold wrapAction
  by_cases h : msg.Event = EVENT_USER_ACTION <;> simp [h]

theorem appendURLs_some (files : List Iface) (message : String)
    (h : ∀ f ∈ files, ∃ fi, f = Iface.fileInfo fi) :
    ∃ text, appendURLs message files = some text := by
  induction files generalizing message with
  | nil => exact ⟨message, rfl⟩
  | cons f rest ih =>
    obtain ⟨fi, hfi⟩ := h f (List.mem_cons_self _ _)
    subst hfi
    simp only [appendURLs, Iface.asFileInfo]
    exact ih _ (fun g hg => h g (List.mem_cons_of_mem _ hg))

/-- C2, the claim as stated fails on the session-API sink: a MessageDelete
message with the ID `p5` makes `Send` call `DeleteMessage`, and a message with
the ID `p5` and a file makes it upload the file and post with
`PostMessageWithFiles`; neither calls `EditMessage`. -/
theorem Send_with_ID_not_always_edit :
    (Send okApi plainHelper sessionAdapter deletionOfPost).calls = [Call.DeleteMessage "p5"] ∧
      (Send okApi plainHelper sessionAdapter postWithFile).calls =
        [Call.UploadFile [1, 2] "id-town" "a.png",
         Call.PostMessageWithFiles "id-town" "look" ["up-a.png"]] ∧
      (Send okApi plainHelper sessionAdapter postWithFile).ret = some ("post2", none) := by
  decide

/-- C2, amended: for every outgoing message with a non-empty ID whose kind is
not AvatarDownload (any text and channel). On the session-API sink (`WebhookURL`
empty, `b.mc` set), when the kind is not MessageDelete and `Extra["file"]` is
empty, `Send` calls `EditMessage` with that ID and the outgoing text and returns
its result; its only other calls are the `PostMessage` calls for the notices of
`HandleExtra`, none when `Extra` is nil. On the webhook sink (`WebhookURL` set,
`b.mh` set), when every entry of `Extra["file"]` is a `FileInfo`, `Send` makes
webhook posts only, no edit and no delete call: one per notice of `HandleExtra`
and last one with the outgoing text followed by the files' URLs (the outgoing
text itself when `Extra` is nil); when that last post succeeds it returns an
empty remote id and no error. -/
theorem Send_with_ID (api : Api) (hlp : Helper) (b : Bmattermost) (msg : Message)
    (hID : msg.ID ≠ "") (hAv : msg.Event ≠ EVENT_AVATAR_DOWNLOAD) :
    (∀ mc, b.Config.WebhookURL = "" → b.mc = some mc → msg.Event ≠ EVENT_MSG_DELETE →
      extraSlice msg.Extra "file" = [] →
      (Send api hlp b msg).calls =
          extraApiPosts api hlp b (wrapAction msg) ++
            [Call.EditMessage msg.ID (outText b (wrapAction msg))] ∧
        (Send api hlp b msg).ret = some (api.EditMessage msg.ID (outText b (wrapAction msg))) ∧
        (msg.Extra = none →
          (Send api hlp b msg).calls =
            [Call.EditMessage msg.ID (outText b (wrapAction msg))])) ∧
    (∀ mh, b.Config.WebhookURL ≠ "" → b.mh = some mh →
      (∀ f ∈ extraSlice msg.Extra "file", ∃ fi, f = Iface.fileInfo fi) →
      ∃ text, appendURLs (outText b (wrapAction msg)) (extraSlice msg.Extra "file") =
          some text ∧
        (Send api hlp b msg).calls =
          (extraHookPosts hlp b (wrapAction msg)).map Call.hookSend ++
            [Call.hookSend (finalHookPost (wrapAction msg) text)] ∧
        (∀ c ∈ (Send api hlp b msg).calls, ∃ om, c = Call.hookSend om) ∧
        (api.hookSend (finalHookPost (wrapAction msg) text) = none →
          (Send api hlp b msg).ret = some ("", none)) ∧
        (msg.Extra = none → text = outText b (wrapAction msg) ∧
          (Send api hlp b msg).calls =
            [Call.hookSend (finalHookPost (wrapAction msg) text)])) := by
  obtain ⟨w1, w2, w3, _, _⟩ := wrapAction_fields msg
  have hAv2 : ¬ (wrapAction msg).Event = EVENT_AVATAR_DOWNLOAD := by rw [w2]; exact hAv
  constructor
  · intro mc hW hmc hDel hfiles
    have hDel2 : ¬ (wrapAction msg).Event = EVENT_MSG_DELETE := by rw [w2]; exact hDel
    have hS : Send api hlp b msg =
        { ret := some (api.EditMessage msg.ID (outText b (wrapAction msg))),
          calls := extraApiPosts api hlp b (wrapAction msg) ++
            [Call.EditMessage msg.ID (outText b (wrapAction msg))],
          avatarMap := b.avatarMap } := by
      simp [Send, hAv2, hW, hmc, onClient, sendApi, hDel2, w3, hfiles, w1, hID]
    rw [hS]
    refine ⟨rfl, rfl, fun hnil => ?_⟩
    simp [extraApiPosts, w3, hnil]
  · intro mh hW hmh hall
    obtain ⟨text, htext⟩ := appendURLs_some _ (outText b (wrapAction msg)) hall
    have htext2 : (match (wrapAction msg).Extra with
        | none => some (outText b (wrapAction msg))
        | some _ => appendURLs (outText b (wrapAction msg))
            (extraSlice (wrapAction msg).Extra "file")) = some text := by
      rw [w3]
      cases hx : msg.Extra with
      | none =>
        rw [hx] at htext
        simpa [extraSlice, appendURLs] using htext
      | some mp =>
        rw [hx] at htext
        simpa using htext
    have hS : Send api hlp b msg =
        { ret := some ("", api.hookSend (finalHookPost (wrapAction msg) text)),
          calls := (extraHookPosts hlp b (wrapAction msg)).map Call.hookSend ++
            [Call.hookSend (finalHookPost (wrapAction msg) text)],
          avatarMap := b.avatarMap } := by
      simp only [Send, hAv2, if_false, hW, ne_eq, not_false_eq_true, if_true, hmh, onClient,
        sendWebhook, htext2]
    refine ⟨text, htext, ?_, ?_, ?_, ?_⟩
    · rw [hS]
    · rw [hS]
      intro c hc
      simp only [List.mem_append, List.mem_map, List.mem_singleton] at hc
      rcases hc with ⟨om, _, hom⟩ | hc
      · exact ⟨om, hom.symm⟩
      · exact ⟨_, hc⟩
    · intro hok
      rw [hS, hok]
    · intro hnil
      have ht : text = outText b (wrapAction msg) := by
        rw [hnil] at htext
        simpa [extraSlice, appendURLs] using htext.symm
      refine ⟨ht, ?_⟩
      rw [hS]
      simp [extraHookPosts, w3, hnil]

/-- C2 at concrete inputs: the edit `editOfPost` of the post `p5`, sent over the
session-API sink and over the webhook sink. -/
theorem Send_with_ID_witness :
    (Send okApi plainHelper sessionAdapter editOfPost).calls =
        [Call.EditMessage "p5" "fixed typo"] ∧
      (Send okApi plainHelper hookAdapter editOfPost).calls =
        [Call.hookSend { Channel := "town", UserName := "<bob> ", Text := "fixed typo",
                         Props := [("matterbridge", PropVal.bool true)] }] ∧
      (Send okApi plainHelper hookAdapter editOfPost).ret = some ("", none) := by
  have h1 := (Send_with_ID okApi plainHelper sessionAdapter editOfPost (by decide)
    (by decide)).1 _ rfl rfl (by decide) rfl
  obtain ⟨text, _, _, _, h5, h6⟩ :=
    (Send_with_ID okApi plainHelper hookAdapter editOfPost (by decide) (by decide)).2 _
      (by decide) rfl (by simp [extraSlice, editOfPost])
  obtain ⟨ht, hc⟩ := h6 rfl
  subst ht
  exact ⟨h1.2.2 rfl, hc, h5 rfl⟩

end Mattermost
